import Mathlib

/-!
Verification of the chat session controller (`useChat` in
`src/frontend/src/hooks/use-chat.ts`) and the transport client
(`ChatAPIClient` in `api-client.ts`) of the ai-task-assistant frontend.

The controller is embedded as explicit state passing: a submission is the
composition of a synchronous start phase (optimistic user append, loading
flag, error clearing, history capture) and a settlement phase applied to the
outcome of the awaited transport call.  The transport client is embedded as
a pure function from the observable settlement of the underlying `fetch`
(raced against the 30-second abort timer) to a `Result`.
-/

namespace AITaskAssistant

/-- Role of a chat message: the `MessageRole` union in `types/message.ts`. -/
inductive MessageRole where
  | user
  | assistant
deriving DecidableEq

/-- One retrieval source record: the elements of `sources` in
`types/message.ts` and in the `ChatResponse` wire schema. -/
structure SourceRecord where
  id : String
  source : String
  title : String
deriving DecidableEq

/-- A JavaScript `Date` as the hook builds it: `new Date()` (the current
instant, modelled by an abstract clock tick supplied to the transition) or
`new Date(iso)` (parsed from the ISO-8601 string of the payload). -/
inductive Timestamp where
  | now (tick : Nat)
  | parsed (iso : String)
deriving DecidableEq

/-- `Message` (`TextMessage`) from `types/message.ts`.  `sources` and
`cached` are the optional fields, absent on user messages. -/
structure Message where
  id : String
  role : MessageRole
  content : String
  timestamp : Timestamp
  sources : Option (List SourceRecord) := none
  cached : Option Bool := none
deriving DecidableEq

/-- `ChatResponse` from `api-client.ts`: the parsed 200 payload of
`POST /chat`. -/
structure ChatResponse where
  response : String
  sources : List SourceRecord
  cached : Bool
  timestamp : String
deriving DecidableEq

/-- One `{role, content}` entry of the `chat_history` request payload. -/
structure HistoryEntry where
  role : MessageRole
  content : String
deriving DecidableEq

/-- The state owned by `useChat`: the `messages`, `isLoading` and `error`
`useState` cells. -/
structure ChatState where
  messages : List Message
  isLoading : Bool
  error : Option String
deriving DecidableEq

/-- The initial hook state: `useState<Message[]>([])`, `useState(false)`,
`useState<string | null>(null)`. -/
def initialState : ChatState :=
  { messages := [], isLoading := false, error := none }

/-! ## Transport client (`ChatAPIClient.sendMessage`) -/

/-- The abort deadline: `setTimeout(() => controller.abort(), 30000)`. -/
def timeoutMs : Nat := 30000

/-- How the underlying `fetch` would settle if never aborted.  For a
non-success status, `parsedBody` records the result of
`response.json().catch(...)`: `none` when the body fails to parse as JSON,
`some d` when it parses with `detail` field `d` (itself `none` if absent). -/
inductive FetchEvent where
  | ok (body : ChatResponse)
  | httpError (status : Nat) (parsedBody : Option (Option String))
  | networkError (msg : String)
deriving DecidableEq

/-- The backend side of one call: it settles after `elapsedMs` milliseconds
with a `FetchEvent`, or it never settles. -/
inductive BackendBehavior where
  | respondsAt (elapsedMs : Nat) (ev : FetchEvent)
  | neverResponds
deriving DecidableEq

/-- What the awaited `fetch` produces once raced against the abort timer:
either the backend settlement, or the `AbortError` `DOMException` when the
timer fired first. -/
inductive FetchResult where
  | ok (body : ChatResponse)
  | httpError (status : Nat) (parsedBody : Option (Option String))
  | abortError
  | networkError (msg : String)
deriving DecidableEq

/-- Race of the `fetch` against the 30-second abort timer: the abort fires
at `timeoutMs`, so a backend that has not settled strictly before the
deadline (or never settles) yields `AbortError`. -/
def raceDeadline : BackendBehavior → FetchResult
  | .neverResponds => .abortError
  | .respondsAt t ev =>
      if timeoutMs ≤ t then .abortError
      else
        match ev with
        | .ok b => .ok b
        | .httpError st pb => .httpError st pb
        | .networkError m => .networkError m

/-- JavaScript truthiness fallback `d || fb` on an optional string field:
absent and empty strings are falsy. -/
def orFallback : Option String → String → String
  | some s, fb => if s = "" then fb else s
  | none, fb => fb

/-- `ChatAPIClient.sendMessage` after the `fetch` settles, from
`api-client.ts`: on `!response.ok` the body is parsed with
`.catch(() => ({ detail: "HTTP " + status }))` and the thrown message is
`err.detail || ("API error: " + status)`; an `AbortError` becomes
`"Request timed out. Please try again."`; other errors are rethrown. -/
def apiSendMessage (fr : FetchResult) : Except String ChatResponse :=
  match fr with
  | .ok body => Except.ok body
  | .httpError status parsedBody =>
      let detail : Option String :=
        match parsedBody with
        | none => some ("HTTP " ++ toString status)
        | some d => d
      Except.error (orFallback detail ("API error: " ++ toString status))
  | .abortError => Except.error "Request timed out. Please try again."
  | .networkError msg => Except.error msg

/-! ## Session controller (`useChat`) -/

/-- The user message built at the top of `sendMessage` in `use-chat.ts`. -/
def mkUserMessage (uid content : String) (tick : Nat) : Message :=
  { id := uid, role := .user, content := content, timestamp := .now tick }

/-- The synchronous start of `sendMessage`: `setMessages(prev => [...prev,
userMessage])`, `setIsLoading(true)`, `setError(null)` — all before the
`await` of the transport call. -/
def submitStart (s : ChatState) (content uid : String) (tick : Nat) : ChatState :=
  { s with
    messages := s.messages ++ [mkUserMessage uid content tick]
    isLoading := true
    error := none }

/-- `messages.map(m => ({ role: m.role, content: m.content }))`. -/
def buildHistory (msgs : List Message) : List HistoryEntry :=
  msgs.map fun m => { role := m.role, content := m.content }

/-- The `chat_history` payload passed to `chatAPI.sendMessage`: it is built
from the `messages` value captured by the closure, i.e. the log as it stood
before the optimistic append. -/
def sentHistory (s : ChatState) : List HistoryEntry :=
  buildHistory s.messages

/-- How the awaited transport call settles, as seen by the `try`/`catch` of
the hook: a parsed payload, or a caught value that is an `Error` carrying
`errMessage` (`some`), or a caught non-`Error` value (`none`). -/
inductive ApiOutcome where
  | success (payload : ChatResponse)
  | failure (errMessage : Option String)
deriving DecidableEq

/-- `err instanceof Error ? err.message : 'An error occurred'`. -/
def errorText : Option String → String
  | some m => m
  | none => "An error occurred"

/-- The assistant message built from a success payload in `use-chat.ts`. -/
def mkAssistantMessage (uid : String) (payload : ChatResponse) : Message :=
  { id := uid, role := .assistant, content := payload.response,
    sources := some payload.sources, cached := some payload.cached,
    timestamp := .parsed payload.timestamp }

/-- The synthesized assistant message appended in the `catch` branch. -/
def mkFailureMessage (uid msg : String) (tick : Nat) : Message :=
  { id := uid, role := .assistant,
    content := "Something went wrong: " ++ msg,
    timestamp := .now tick }

/-- Settlement of `sendMessage`: the success branch appends the assistant
message; the `catch` branch sets `error` and appends the synthesized
message; the `finally` branch sets `isLoading` to `false` on both paths. -/
def submitSettle (s : ChatState) (outcome : ApiOutcome) (uid : String)
    (tick : Nat) : ChatState :=
  match outcome with
  | .success payload =>
      { s with
        messages := s.messages ++ [mkAssistantMessage uid payload]
        isLoading := false }
  | .failure e =>
      let msg := errorText e
      { messages := s.messages ++ [mkFailureMessage uid msg tick]
        isLoading := false
        error := some msg }

/-- One complete run of `sendMessage` from `use-chat.ts`: the synchronous
start phase followed by the settlement of the awaited call.  `uid1`/`uid2`
are the two `crypto.randomUUID()` draws; `t1`/`t2` the two `new Date()`
instants.  It is a total function of the outcome: no error escapes. -/
def sendMessage (s : ChatState) (content uid1 uid2 : String) (t1 t2 : Nat)
    (outcome : ApiOutcome) : ChatState :=
  submitSettle (submitStart s content uid1 t1) outcome uid2 t2

/-- How the hook's `try`/`catch` sees the transport client's result: a
rejection of `chatAPI.sendMessage` is always an `Error` instance, whose
message the catch branch reads. -/
def outcomeOfApi : Except String ChatResponse → ApiOutcome
  | Except.ok p => .success p
  | Except.error m => .failure (some m)

/-- The full pipeline: `sendMessage` of the hook delegating to
`ChatAPIClient.sendMessage` over a backend with behavior `beh`. -/
def submitWithTransport (s : ChatState) (content uid1 uid2 : String)
    (t1 t2 : Nat) (beh : BackendBehavior) : ChatState :=
  sendMessage s content uid1 uid2 t1 t2
    (outcomeOfApi (apiSendMessage (raceDeadline beh)))

/-- `clearChat` from `use-chat.ts`: `setMessages([])`, `setError(null)`;
`isLoading` is not touched. -/
def clearChat (s : ChatState) : ChatState :=
  { s with messages := [], error := none }

/-! ## Claims -/

/-- Claim C1: for every text, `sendMessage` appends exactly one user-role
message whose content equals the submitted text synchronously (in the start
phase, before the transport call settles), and no settlement outcome —
success or failure — ever removes that message from the log. -/
theorem c1_optimistic_user_append (s : ChatState) (content uid1 uid2 : String)
    (t1 t2 : Nat) (outcome : ApiOutcome) :
    (submitStart s content uid1 t1).messages
      = s.messages ++ [mkUserMessage uid1 content t1] ∧
    (mkUserMessage uid1 content t1).role = MessageRole.user ∧
    (mkUserMessage uid1 content t1).content = content ∧
    ∃ rest, (sendMessage s content uid1 uid2 t1 t2 outcome).messages
      = s.messages ++ [mkUserMessage uid1 content t1] ++ rest := by
  refine ⟨rfl, rfl, rfl, ?_⟩
  cases outcome with
  | success p => exact ⟨[mkAssistantMessage uid2 p], rfl⟩
  | failure e => exact ⟨[mkFailureMessage uid2 (errorText e) t2], rfl⟩

/-- Claim C2: the `chat_history` payload passed to the transport client is
built from the closure-captured log, i.e. it equals the `{role, content}`
projection of the log as it stood strictly before the just-appended user
message — the optimistic append is excluded from the history sent. -/
theorem c2_history_excludes_new_message (s : ChatState) (content uid : String)
    (t : Nat) :
    sentHistory s
      = buildHistory (submitStart s content uid t).messages.dropLast ∧
    (submitStart s content uid t).messages.dropLast = s.messages := by
  have h : (submitStart s content uid t).messages.dropLast = s.messages := by
    simp [submitStart]
  exact ⟨by rw [h]; rfl, h⟩

/-- Claim C3: a success payload appends exactly one assistant message whose
`content` is the payload's `response`, whose `sources`/`cached` mirror the
payload and whose timestamp is parsed from the payload's `timestamp`; the
stored error is absent afterwards.  In particular submitting `"hello"` on an
empty log with payload `{response := "hi", sources := [], cached := false}`
leaves exactly the two messages `[user "hello", assistant "hi"]`. -/
theorem c3_success_appends_assistant (s : ChatState) (content uid1 uid2 : String)
    (t1 t2 : Nat) (p : ChatResponse) :
    (sendMessage s content uid1 uid2 t1 t2 (.success p)).messages
      = s.messages ++ [mkUserMessage uid1 content t1, mkAssistantMessage uid2 p] ∧
    (mkAssistantMessage uid2 p).role = MessageRole.assistant ∧
    (mkAssistantMessage uid2 p).content = p.response ∧
    (mkAssistantMessage uid2 p).sources = some p.sources ∧
    (mkAssistantMessage uid2 p).cached = some p.cached ∧
    (mkAssistantMessage uid2 p).timestamp = Timestamp.parsed p.timestamp ∧
    (sendMessage s content uid1 uid2 t1 t2 (.success p)).error = none ∧
    (sendMessage initialState "hello" uid1 uid2 t1 t2
        (.success { response := "hi", sources := [], cached := false,
                    timestamp := "2024-01-01T00:00:00Z" })).messages.map
        (fun m => (m.role, m.content))
      = [(MessageRole.user, "hello"), (MessageRole.assistant, "hi")] := by
  refine ⟨?_, rfl, rfl, rfl, rfl, rfl, rfl, ?_⟩
  · simp [sendMessage, submitStart, submitSettle]
  · rfl

/-- Claim C4: every failure carried by an `Error` with message `m` makes
`sendMessage` append exactly one synthesized assistant message with content
`"Something went wrong: " ++ m`, set the stored error to `m`, and return a
state (the embedding is a total function of the outcome: no error
propagates uncaught out of the submission). -/
theorem c4_failure_synthesized_message (s : ChatState)
    (content uid1 uid2 : String) (t1 t2 : Nat) (m : String) :
    (sendMessage s content uid1 uid2 t1 t2 (.failure (some m))).messages
      = s.messages
          ++ [mkUserMessage uid1 content t1, mkFailureMessage uid2 m t2] ∧
    (mkFailureMessage uid2 m t2).role = MessageRole.assistant ∧
    (mkFailureMessage uid2 m t2).content = "Something went wrong: " ++ m ∧
    (sendMessage s content uid1 uid2 t1 t2 (.failure (some m))).error
      = some m := by
  refine ⟨?_, rfl, rfl, rfl⟩
  simp [sendMessage, submitStart, submitSettle, errorText]

/-- Claim C5: the transport client arms a 30000 ms deadline; a backend that
has not settled by the deadline (or never settles) yields the abort, which
surfaces as `"Request timed out. Please try again."`, and the session
controller turns it into the synthesized transcript entry
`"Something went wrong: Request timed out. Please try again."`. -/
theorem c5_timeout_deadline (s : ChatState) (content uid1 uid2 : String)
    (t1 t2 elapsed : Nat) (ev : FetchEvent) (h : timeoutMs ≤ elapsed) :
    timeoutMs = 30000 ∧
    raceDeadline (.respondsAt elapsed ev) = FetchResult.abortError ∧
    raceDeadline .neverResponds = FetchResult.abortError ∧
    apiSendMessage FetchResult.abortError
      = Except.error "Request timed out. Please try again." ∧
    (submitWithTransport s content uid1 uid2 t1 t2 .neverResponds).messages
      = s.messages
          ++ [mkUserMessage uid1 content t1,
              mkFailureMessage uid2 "Request timed out. Please try again." t2] ∧
    (mkFailureMessage uid2 "Request timed out. Please try again." t2).content
      = "Something went wrong: Request timed out. Please try again." ∧
    (submitWithTransport s content uid1 uid2 t1 t2 .neverResponds).error
      = some "Request timed out. Please try again." := by
  refine ⟨rfl, ?_, rfl, rfl, ?_, rfl, ?_⟩
  · simp [raceDeadline, h]
  · simp [submitWithTransport, sendMessage, submitStart, submitSettle,
      raceDeadline, apiSendMessage, outcomeOfApi, errorText]
  · simp [submitWithTransport, sendMessage, submitStart, submitSettle,
      raceDeadline, apiSendMessage, outcomeOfApi, errorText]

/-- Witness for C5 at a concrete settlement time of exactly 30000 ms. -/
theorem c5_timeout_deadline_witness :
    timeoutMs ≤ 30000 ∧
    raceDeadline (.respondsAt 30000 (.networkError "boom"))
      = FetchResult.abortError :=
  ⟨by decide,
    (c5_timeout_deadline initialState "hello" "u1" "u2" 0 0 30000
      (.networkError "boom") (by decide)).2.1⟩

/-- Counterexample to claim C6 as stated: when the error body of a
non-success status fails to parse as JSON, the surfaced message is
`"HTTP <status>"` (from the `.catch` fallback object), not the generic
`"API error: <status>"` the claim requires. -/
theorem c6_parse_failure_counterexample :
    apiSendMessage (FetchResult.httpError 500 none)
      = Except.error "HTTP 500" ∧
    ("HTTP 500" : String) ≠ "API error: 500" := by
  exact ⟨rfl, by decide⟩

/-- Claim C6 (amended): on a non-success HTTP status the client surfaces the
parsed `detail` when it is a non-empty string; when the body fails to parse
as JSON it surfaces `"HTTP <status>"`; the generic `"API error: <status>"`
is the fallback when the body parses but its `detail` is absent or empty. -/
theorem c6_detail_fallback (status : Nat) (d : String) (hd : d ≠ "") :
    apiSendMessage (.httpError status none)
      = Except.error ("HTTP " ++ toString status) ∧
    apiSendMessage (.httpError status (some none))
      = Except.error ("API error: " ++ toString status) ∧
    apiSendMessage (.httpError status (some (some "")))
      = Except.error ("API error: " ++ toString status) ∧
    apiSendMessage (.httpError status (some (some d)))
      = Except.error d := by
  refine ⟨?_, rfl, rfl, ?_⟩
  · have hne : ("HTTP " ++ toString status) ≠ "" := by
      intro h
      have h2 : ("HTTP " ++ toString status).length = 0 := by rw [h]; rfl
      rw [String.length_append] at h2
      have h3 : ("HTTP ").length = 5 := rfl
      omega
    simp [apiSendMessage, orFallback, hne]
  · simp [apiSendMessage, orFallback, hd]

/-- Witness for the amended C6 at status 500 and detail `"bad request"`. -/
theorem c6_detail_fallback_witness :
    ("bad request" : String) ≠ "" ∧
    apiSendMessage (.httpError 500 (some (some "bad request")))
      = Except.error "bad request" :=
  ⟨by decide, (c6_detail_fallback 500 "bad request" (by decide)).2.2.2⟩

/-- Claim C7: the log is append-only between resets — each phase of a
submission, and hence a full submission under any outcome, extends the
existing log without mutating, removing or reordering it; only `clearChat`
empties it. -/
theorem c7_append_only (s : ChatState) (content uid1 uid2 : String)
    (t1 t2 : Nat) (outcome : ApiOutcome) :
    (∃ rest, (submitStart s content uid1 t1).messages = s.messages ++ rest) ∧
    (∃ rest, (submitSettle s outcome uid2 t2).messages = s.messages ++ rest) ∧
    (∃ rest, (sendMessage s content uid1 uid2 t1 t2 outcome).messages
      = s.messages ++ rest) ∧
    (clearChat s).messages = [] := by
  refine ⟨⟨[mkUserMessage uid1 content t1], rfl⟩, ?_, ?_, rfl⟩
  · cases outcome with
    | success p => exact ⟨[mkAssistantMessage uid2 p], rfl⟩
    | failure e => exact ⟨[mkFailureMessage uid2 (errorText e) t2], rfl⟩
  · cases outcome with
    | success p =>
        exact ⟨[mkUserMessage uid1 content t1, mkAssistantMessage uid2 p],
          by simp [sendMessage, submitStart, submitSettle]⟩
    | failure e =>
        exact ⟨[mkUserMessage uid1 content t1,
            mkFailureMessage uid2 (errorText e) t2],
          by simp [sendMessage, submitStart, submitSettle]⟩

/-- Claim C8: `isLoading` is true exactly while a request is in flight — the
start phase sets it true before the transport call, and every settlement
path (success or failure, hence also timeout) leaves it false by the time
the submission completes. -/
theorem c8_pending_flag (s : ChatState) (content uid1 uid2 : String)
    (t1 t2 : Nat) (outcome : ApiOutcome) :
    (submitStart s content uid1 t1).isLoading = true ∧
    (submitSettle s outcome uid2 t2).isLoading = false ∧
    (sendMessage s content uid1 uid2 t1 t2 outcome).isLoading = false := by
  refine ⟨rfl, ?_, ?_⟩ <;> cases outcome <;> rfl

/-- Claim C9: `clearChat` always yields an empty log and an absent error
while leaving `isLoading` unchanged; consequently on an already-empty,
non-pending session it is an observable no-op. -/
theorem c9_reset_clears (s : ChatState) :
    (clearChat s).messages = [] ∧
    (clearChat s).error = none ∧
    (clearChat s).isLoading = s.isLoading ∧
    (s.messages = [] → s.error = none → s.isLoading = false →
      clearChat s = s) := by
  refine ⟨rfl, rfl, rfl, ?_⟩
  intro hm he _
  cases s
  simp_all [clearChat]

/-- Witness for C9: `clearChat` on the initial state is a no-op. -/
theorem c9_reset_clears_witness : clearChat initialState = initialState :=
  (c9_reset_clears initialState).2.2.2 rfl rfl rfl

/-- Claim C10: every submission clears the stored error synchronously in its
start phase, before the transport call settles — so a previous failure's
error is removed by the very next submission, independently of that
submission's own outcome; clearing is not tied to the success transition. -/
theorem c10_error_cleared_at_start (s : ChatState) (content uid : String)
    (t : Nat) :
    (submitStart s content uid t).error = none := rfl

end AITaskAssistant
